import Mathlib

/-!
Verification development for the ai-meeting-assistance backend.

The definitions below are a shallow embedding of the Python sources under
`backend/app`: the meeting model (`models/meeting.py`), the LLM service layer
(`services/llm_service.py`, `core/config.py`), the prompt output schemas
(`services/prompts.py`), the summary service (`services/summary_service.py`)
and the action-item extraction service (`services/action_item_service.py`).
Database sessions are modelled by explicit state passing: each service
operation returns both the value/exception seen by the caller and the final
persisted state of the row(s) it touched.  Python exceptions are modelled with
`Except`; `None` with `Option`.
-/

/-! ## Python string semantics helpers -/

/-- Characters stripped by the Python `str.strip()` default (ASCII whitespace;
Python additionally strips some unicode space characters, which never arise in
the properties below). -/
def pyIsSpace (c : Char) : Bool :=
  c = ' ' || c = '\t' || c = '\n' || c = '\r' || c = '\x0b' || c = '\x0c'

/-- Model of the Python `str.strip()` with no arguments. -/
def pyStrip (s : String) : String :=
  ⟨((s.data.dropWhile pyIsSpace).reverse.dropWhile pyIsSpace).reverse⟩

/-- Model of the Python `x or default` idiom on an optional string: `None` and
the empty string are falsy and select the default. -/
def pyOptStrOr (x : Option String) (d : String) : String :=
  match x with
  | some s => if s = "" then d else s
  | none => d

/-- Model of the Python `x or default` idiom on a string value. -/
def pyStrOr (s d : String) : String := if s = "" then d else s

/-- Model of the Python `str.lower()` (ASCII case mapping; provider names
are ASCII). -/
def pyLower (s : String) : String := ⟨s.data.map Char.toLower⟩

/-- Model of the Python `x or default` idiom on an optional integer:
`None` and `0` are falsy and select the default. -/
def pyOrNat (x : Option Nat) (d : Nat) : Nat :=
  match x with
  | none => d
  | some v => if v = 0 then d else v

/-- Model of the Python `x or default` idiom on an optional float
(represented exactly as a rational): `None` and `0.0` are falsy. -/
def pyOrRat (x : Option Rat) (d : Rat) : Rat :=
  match x with
  | none => d
  | some v => if v = 0 then d else v

/-! ## JSON values, serialization (json.dumps) and parsing (json.loads) -/

/-- JSON values as produced by the Python `json` module.  `nan` and `inf`
model the non-standard `NaN` / `Infinity` / `-Infinity` constants that
`json.loads` accepts by default. -/
inductive Json where
  | null
  | bool (b : Bool)
  | num (v : Rat)
  | nan
  | inf (neg : Bool)
  | str (s : String)
  | arr (elems : List Json)
  | obj (fields : List (String × Json))

/-- Lowercase hexadecimal digit, as used by the Python json escaping. -/
def hexDigitLower (n : Nat) : Char :=
  if n < 10 then Char.ofNat (48 + n) else Char.ofNat (87 + n)

/-- Escaping of one character by `json.dumps` with `ensure_ascii=False`:
quote, backslash and control characters are escaped, everything else
(including non-ASCII) is emitted as-is. -/
def jsonEscapeChar (c : Char) : List Char :=
  if c = '"' then ['\\', '"']
  else if c = '\\' then ['\\', '\\']
  else if c = '\n' then ['\\', 'n']
  else if c = '\t' then ['\\', 't']
  else if c = '\r' then ['\\', 'r']
  else if c = '\x08' then ['\\', 'b']
  else if c = '\x0c' then ['\\', 'f']
  else if c.toNat < 32 then
    ['\\', 'u', '0', '0', hexDigitLower (c.toNat / 16), hexDigitLower (c.toNat % 16)]
  else [c]

/-- Model of `json.dumps` on a single string (with `ensure_ascii=False`). -/
def jsonEncodeString (s : String) : String :=
  ⟨'"' :: (s.data.map jsonEscapeChar).flatten ++ ['"']⟩

/-- Model of `json.dumps(xs, ensure_ascii=False)` for a list of strings, with
the default separators. -/
def json_dumps_strlist (xs : List String) : String :=
  "[" ++ String.intercalate ", " (xs.map jsonEncodeString) ++ "]"

/-- JSON whitespace skipped by the Python json scanner. -/
def jsonIsWs (c : Char) : Bool := c = ' ' || c = '\t' || c = '\n' || c = '\r'

/-- Skip leading JSON whitespace. -/
def skipJsonWs : List Char → List Char
  | [] => []
  | c :: cs => if jsonIsWs c then skipJsonWs cs else c :: cs

/-- Value of a hexadecimal digit, if any. -/
def hexVal (c : Char) : Option Nat :=
  if '0' ≤ c && c ≤ '9' then some (c.toNat - 48)
  else if 'a' ≤ c && c ≤ 'f' then some (c.toNat - 87)
  else if 'A' ≤ c && c ≤ 'F' then some (c.toNat - 55)
  else none

/-- Translation of a single-character json string escape. -/
def jsonEscapeCode (c : Char) : Option Char :=
  if c = '"' then some '"'
  else if c = '\\' then some '\\'
  else if c = '/' then some '/'
  else if c = 'b' then some '\x08'
  else if c = 'f' then some '\x0c'
  else if c = 'n' then some '\n'
  else if c = 'r' then some '\r'
  else if c = 't' then some '\t'
  else none

/-- Parse the body of a json string after the opening quote.  Unescaped
control characters are rejected (the Python decoder is strict by default).
Lone `\uXXXX` escapes in the surrogate range decode to an unspecified
character here; this only affects the decoded value, never parse success. -/
def parseJsonString : Nat → List Char → Option (List Char × List Char)
  | 0, _ => none
  | _ + 1, [] => none
  | f + 1, c :: cs =>
    if c = '"' then some ([], cs)
    else if c = '\\' then
      match cs with
      | 'u' :: h1 :: h2 :: h3 :: h4 :: rest => do
        let a ← hexVal h1
        let b ← hexVal h2
        let c2 ← hexVal h3
        let d ← hexVal h4
        let p ← parseJsonString f rest
        pure (Char.ofNat (4096 * a + 256 * b + 16 * c2 + d) :: p.1, p.2)
      | e :: rest =>
        match jsonEscapeCode e with
        | some ch => (parseJsonString f rest).map (fun p => (ch :: p.1, p.2))
        | none => none
      | [] => none
    else if c.toNat < 32 then none
    else (parseJsonString f cs).map (fun p => (c :: p.1, p.2))

/-- Strip a literal prefix from a character list. -/
def stripLiteral : List Char → List Char → Option (List Char)
  | [], cs => some cs
  | _ :: _, [] => none
  | p :: ps, c :: cs => if c = p then stripLiteral ps cs else none

/-- Split leading decimal digits. -/
def splitDigits (cs : List Char) : List Char × List Char :=
  (cs.takeWhile Char.isDigit, cs.dropWhile Char.isDigit)

/-- Decimal value of a digit list. -/
def digitsToNat (ds : List Char) : Nat :=
  ds.foldl (fun acc c => 10 * acc + (c.toNat - 48)) 0

/-- Parse a json number following the grammar used by the Python scanner:
optional sign, integer part without leading zeros, optional fraction,
optional exponent.  The value is represented exactly as a rational. -/
def parseJsonNumber (cs : List Char) : Option (Json × List Char) :=
  let signSplit : Bool × List Char :=
    match cs with
    | '-' :: rest => (true, rest)
    | _ => (false, cs)
  let neg := signSplit.1
  let cs1 := signSplit.2
  match cs1 with
  | [] => none
  | c :: rest1 =>
    if c.isDigit then
      let intSplit : List Char × List Char :=
        if c = '0' then ([c], rest1) else splitDigits cs1
      let intDigits := intSplit.1
      let cs2 := intSplit.2
      let fracSplit : Option (List Char) × List Char :=
        match cs2 with
        | '.' :: rest =>
          let p := splitDigits rest
          (some p.1, p.2)
        | _ => (none, cs2)
      match fracSplit.1 with
      | some [] => none
      | _ =>
        let fracDigits := (fracSplit.1).getD []
        let cs3 := fracSplit.2
        let expSplit : Option (Bool × List Char) × List Char :=
          match cs3 with
          | 'e' :: rest | 'E' :: rest =>
            match rest with
            | '+' :: rest2 =>
              let p := splitDigits rest2
              (some (false, p.1), p.2)
            | '-' :: rest2 =>
              let p := splitDigits rest2
              (some (true, p.1), p.2)
            | _ =>
              let p := splitDigits rest
              (some (false, p.1), p.2)
          | _ => (none, cs3)
        match expSplit.1 with
        | some (_, []) => none
        | _ =>
          let cs4 := expSplit.2
          let mag : Int := Int.ofNat (digitsToNat (intDigits ++ fracDigits))
          let mantissa : Int := if neg then -mag else mag
          let expGiven : Int :=
            match expSplit.1 with
            | some (eneg, ds) =>
              if eneg then -(Int.ofNat (digitsToNat ds)) else Int.ofNat (digitsToNat ds)
            | none => 0
          let expVal : Int := expGiven - Int.ofNat fracDigits.length
          let value : Rat :=
            if 0 ≤ expVal then (mantissa : Rat) * (10 : Rat) ^ expVal.toNat
            else (mantissa : Rat) / (10 : Rat) ^ (-expVal).toNat
          some (Json.num value, cs4)
    else none

mutual

/-- Parse one json value.  The fuel argument only bounds recursion depth and
is chosen large enough for the whole input (see `json_loads`). -/
def parseJsonValue : Nat → List Char → Option (Json × List Char)
  | 0, _ => none
  | _ + 1, [] => none
  | f + 1, c :: rest =>
    if c = Char.ofNat 123 then parseJsonObjStart f (skipJsonWs rest)
    else if c = '[' then parseJsonArrStart f (skipJsonWs rest)
    else if c = '"' then (parseJsonString f rest).map (fun p => (Json.str ⟨p.1⟩, p.2))
    else
      match stripLiteral ("true".data) (c :: rest) with
      | some r => some (Json.bool true, r)
      | none =>
        match stripLiteral ("false".data) (c :: rest) with
        | some r => some (Json.bool false, r)
        | none =>
          match stripLiteral ("null".data) (c :: rest) with
          | some r => some (Json.null, r)
          | none =>
            match stripLiteral ("NaN".data) (c :: rest) with
            | some r => some (Json.nan, r)
            | none =>
              match stripLiteral ("Infinity".data) (c :: rest) with
              | some r => some (Json.inf false, r)
              | none =>
                match stripLiteral ("-Infinity".data) (c :: rest) with
                | some r => some (Json.inf true, r)
                | none => parseJsonNumber (c :: rest)

/-- Parse an array body after the opening bracket (whitespace skipped). -/
def parseJsonArrStart : Nat → List Char → Option (Json × List Char)
  | 0, _ => none
  | f + 1, cs =>
    match cs with
    | ']' :: rest => some (Json.arr [], rest)
    | _ => do
      let p ← parseJsonValue f cs
      parseJsonArrTail f [p.1] (skipJsonWs p.2)

/-- Parse the rest of an array after at least one element. -/
def parseJsonArrTail : Nat → List Json → List Char → Option (Json × List Char)
  | 0, _, _ => none
  | f + 1, acc, cs =>
    match cs with
    | ']' :: rest => some (Json.arr acc.reverse, rest)
    | ',' :: rest => do
      let p ← parseJsonValue f (skipJsonWs rest)
      parseJsonArrTail f (p.1 :: acc) (skipJsonWs p.2)
    | _ => none

/-- Parse an object body after the opening brace (whitespace skipped). -/
def parseJsonObjStart : Nat → List Char → Option (Json × List Char)
  | 0, _ => none
  | f + 1, cs =>
    match cs with
    | c :: rest =>
      if c = Char.ofNat 125 then some (Json.obj [], rest)
      else parseJsonObjPair f [] (c :: rest)
    | [] => none

/-- Parse one key/value pair of an object (keys must be strings). -/
def parseJsonObjPair : Nat → List (String × Json) → List Char → Option (Json × List Char)
  | 0, _, _ => none
  | f + 1, acc, cs =>
    match cs with
    | '"' :: rest => do
      let k ← parseJsonString f rest
      match skipJsonWs k.2 with
      | ':' :: rest2 => do
        let v ← parseJsonValue f (skipJsonWs rest2)
        parseJsonObjTail f ((⟨k.1⟩, v.1) :: acc) (skipJsonWs v.2)
      | _ => none
    | _ => none

/-- Parse the rest of an object after at least one pair. -/
def parseJsonObjTail : Nat → List (String × Json) → List Char → Option (Json × List Char)
  | 0, _, _ => none
  | f + 1, acc, cs =>
    match cs with
    | c :: rest =>
      if c = Char.ofNat 125 then some (Json.obj acc.reverse, rest)
      else if c = ',' then parseJsonObjPair f acc (skipJsonWs rest)
      else none
    | [] => none

end

/-- Model of the Python `json.loads`: skip leading whitespace, parse exactly
one value, require only whitespace afterwards.  `none` models a raised
`json.JSONDecodeError`.  The fuel bound is generous: every recursive call in
the parser either consumes input or moves to a sub-parser that does. -/
def json_loads (s : String) : Option Json :=
  match parseJsonValue (8 * (s.length + 1)) (skipJsonWs s.data) with
  | some (v, rest) =>
    match skipJsonWs rest with
    | [] => some v
    | _ => none
  | none => none

/-- Lookup in a decoded json object with Python dict semantics: a repeated
key keeps the last value. -/
def dictGet (fields : List (String × Json)) (k : String) : Option Json :=
  fields.foldl (fun acc kv => if kv.1 = k then some kv.2 else acc) none

/-! ## Meeting model (`models/meeting.py`) -/

/-- String values of the `MeetingStatus` enum. -/
def MeetingStatus.draft : String := "draft"

/-- Status while the summary generation is in flight. -/
def MeetingStatus.processing : String := "processing"

/-- Status after a successful summary generation. -/
def MeetingStatus.completed : String := "completed"

/-- The `meetings` row, with the columns the services read and write.  The
DB-managed timestamp columns are omitted: they are maintained by column
defaults outside the service code under verification. -/
structure Meeting where
  id : Int
  title : String
  start_time : Option String := none
  end_time : Option String := none
  participants : Option String := none
  original_text : Option String := none
  summary : Option String := none
  topics : Option String := none
  decisions : Option String := none
  discussion_points : Option String := none
  status : String := "draft"

/-- Model of the `Meeting.topics_list` property: falsy (absent or empty)
column gives the empty list, a decode error gives the empty list, otherwise
the decoded json value is returned.  Totality of this function models the
never-raises behaviour of the property. -/
def topics_list (m : Meeting) : Json :=
  match m.topics with
  | some s =>
    if s = "" then Json.arr []
    else
      match json_loads s with
      | some v => v
      | none => Json.arr []
  | none => Json.arr []

/-- Model of the `Meeting.decisions_list` property. -/
def decisions_list (m : Meeting) : Json :=
  match m.decisions with
  | some s =>
    if s = "" then Json.arr []
    else
      match json_loads s with
      | some v => v
      | none => Json.arr []
  | none => Json.arr []

/-- Model of the `Meeting.discussion_points_list` property. -/
def discussion_points_list (m : Meeting) : Json :=
  match m.discussion_points with
  | some s =>
    if s = "" then Json.arr []
    else
      match json_loads s with
      | some v => v
      | none => Json.arr []
  | none => Json.arr []

/-! ## Output schemas and pydantic validation (`services/prompts.py`) -/

/-- The `MeetingSummaryOutput` pydantic model: `summary` and `topics` are
required, `decisions` and `discussion_points` default to the empty list. -/
structure MeetingSummaryOutput where
  summary : String
  topics : List String
  decisions : List String := []
  discussion_points : List String := []

/-- The `ActionItemOutput` pydantic model: `title` and `owner` required,
`description` defaults to the empty string, `due_date` to null, `priority`
to `"medium"`. -/
structure ActionItemOutput where
  title : String
  description : String := ""
  owner : String
  due_date : Option String := none
  priority : String := "medium"

/-- The `ActionItemsExtractionOutput` pydantic model: `action_items`
defaults to the empty list. -/
structure ActionItemsExtractionOutput where
  action_items : List ActionItemOutput := []

/-- Pydantic validation of one action item from a decoded json value:
`title` and `owner` must be present strings; `description`, `due_date` and
`priority` take their declared defaults when absent; extra keys are ignored
(the pydantic default).  The error strings summarize the pydantic messages. -/
def validateActionItem (j : Json) : Except String ActionItemOutput :=
  match j with
  | Json.obj fields =>
    match dictGet fields "title" with
    | some (Json.str t) =>
      match dictGet fields "owner" with
      | some (Json.str o) =>
        let descE : Except String String :=
          match dictGet fields "description" with
          | none => Except.ok ""
          | some (Json.str d) => Except.ok d
          | some _ => Except.error "description must be a string"
        let dueE : Except String (Option String) :=
          match dictGet fields "due_date" with
          | none => Except.ok none
          | some Json.null => Except.ok none
          | some (Json.str s) => Except.ok (some s)
          | some _ => Except.error "due_date must be a string or null"
        let priE : Except String String :=
          match dictGet fields "priority" with
          | none => Except.ok "medium"
          | some (Json.str p) => Except.ok p
          | some _ => Except.error "priority must be a string"
        match descE, dueE, priE with
        | Except.ok d, Except.ok due, Except.ok p =>
          Except.ok { title := t, description := d, owner := o, due_date := due, priority := p }
        | Except.error msg, _, _ => Except.error msg
        | _, Except.error msg, _ => Except.error msg
        | _, _, Except.error msg => Except.error msg
      | some _ => Except.error "owner must be a string"
      | none => Except.error "owner field required"
    | some _ => Except.error "title must be a string"
    | none => Except.error "title field required"
  | _ => Except.error "action item must be an object"

/-- Pydantic validation of `ActionItemsExtractionOutput(**response)`: a
missing `action_items` key takes the default empty list; when present it
must be a list whose every element validates as an action item. -/
def validateExtractionOutput (j : Json) : Except String ActionItemsExtractionOutput :=
  match j with
  | Json.obj fields =>
    match dictGet fields "action_items" with
    | none => Except.ok { action_items := [] }
    | some (Json.arr xs) =>
      match xs.mapM validateActionItem with
      | Except.ok items => Except.ok { action_items := items }
      | Except.error msg => Except.error msg
    | some _ => Except.error "action_items must be a list"
  | _ => Except.error "extraction output must be an object"

/-! ## Configuration (`core/config.py`) -/

/-- The settings fields consumed by the LLM layer, with the types the source
declares (`AZURE_OPENAI_ENDPOINT` and `AZURE_OPENAI_DEPLOYMENT` are
`Optional[str]`; the temperature, a float in the source, is represented
exactly as a rational). -/
structure Settings where
  LLM_PROVIDER : String
  LLM_MODEL : String
  LLM_API_KEY : String
  AZURE_OPENAI_ENDPOINT : Option String
  AZURE_OPENAI_API_VERSION : String
  AZURE_OPENAI_DEPLOYMENT : Option String
  LLM_MAX_RETRIES : Nat
  LLM_TIMEOUT : Nat
  LLM_MAX_TOKENS : Nat
  LLM_TEMPERATURE : Rat

/-- The defaults of `Settings` in `core/config.py` (used when no environment
variable overrides them). -/
def defaultSettings : Settings where
  LLM_PROVIDER := "azure_openai"
  LLM_MODEL := "gpt-4o-dev-aigateway-exception"
  LLM_API_KEY := ""
  AZURE_OPENAI_ENDPOINT := some "https://dev-adhoc-ai-gateway-exception.openai.azure.com/"
  AZURE_OPENAI_API_VERSION := "2024-12-01-preview"
  AZURE_OPENAI_DEPLOYMENT := some "gpt-4o-dev-aigateway-exception"
  LLM_MAX_RETRIES := 3
  LLM_TIMEOUT := 60
  LLM_MAX_TOKENS := 4096
  LLM_TEMPERATURE := 7 / 10

/-! ## LLM service (`services/llm_service.py`) -/

/-- The constructed provider adapters with the configuration each one
captures at construction time. -/
inductive Provider where
  | anthropic (api_key : String)
  | openai (api_key : String)
  | azure_openai (api_key : String) (endpoint : String) (api_version : String)
      (deployment : String)

/-- Construction of `AnthropicProvider`: the source passes the key to the
SDK client and performs no credential validation of its own; the SDK client
accepts any string key (`Settings.LLM_API_KEY` is a `str`, never `None`),
so construction succeeds for every configuration.  The `ImportError` branch
depends on the installed environment and is modelled as the package being
present. -/
def anthropicInit (s : Settings) : Except String Provider :=
  Except.ok (Provider.anthropic s.LLM_API_KEY)

/-- Construction of `OpenAIProvider` (same considerations as
`anthropicInit`). -/
def openAIInit (s : Settings) : Except String Provider :=
  Except.ok (Provider.openai s.LLM_API_KEY)

/-- Construction of `AzureOpenAIProvider`: a falsy (absent or empty)
`AZURE_OPENAI_ENDPOINT` raises `LLMError` inside `__init__`; the deployment
falls back to `LLM_MODEL` via the Python `or`. -/
def azureOpenAIInit (s : Settings) : Except String Provider :=
  match s.AZURE_OPENAI_ENDPOINT with
  | none => Except.error "AZURE_OPENAI_ENDPOINT is required for Azure OpenAI"
  | some ep =>
    if ep = "" then Except.error "AZURE_OPENAI_ENDPOINT is required for Azure OpenAI"
    else
      Except.ok (Provider.azure_openai s.LLM_API_KEY ep s.AZURE_OPENAI_API_VERSION
        (pyOptStrOr s.AZURE_OPENAI_DEPLOYMENT s.LLM_MODEL))

/-- Model of `LLMService._create_provider`: case-insensitive lookup of the
provider name; an unknown name raises `LLMError` (the Python message prints
the quoted key list, abbreviated here).  `LLMService.__init__` runs this at
construction of the (singleton) service, before any adapter call, so an
`Except.error` here is a construction-time failure. -/
def create_provider (s : Settings) : Except String Provider :=
  let name := pyLower s.LLM_PROVIDER
  if name = "anthropic" then anthropicInit s
  else if name = "openai" then openAIInit s
  else if name = "azure_openai" then azureOpenAIInit s
  else
    Except.error ("Unknown LLM provider: " ++ s.LLM_PROVIDER ++
      ". Available options: [anthropic, openai, azure_openai]")

/-- The argument resolution in `LLMService.generate_completion`: the adapter
receives `max_tokens or settings.LLM_MAX_TOKENS` and
`temperature or settings.LLM_TEMPERATURE` (Python `or`, so `None`, `0` and
`0.0` all select the default), and `json_mode` unchanged. -/
structure AdapterCallArgs where
  max_tokens : Nat
  temperature : Rat
  json_mode : Bool

/-- Arguments passed through to the selected adapter by
`LLMService.generate_completion`. -/
def generate_completion_args (s : Settings) (max_tokens : Option Nat)
    (temperature : Option Rat) (json_mode : Bool) : AdapterCallArgs where
  max_tokens := pyOrNat max_tokens s.LLM_MAX_TOKENS
  temperature := pyOrRat temperature s.LLM_TEMPERATURE
  json_mode := json_mode

/-! ### Anthropic adapter message handling -/

/-- A chat message handed to `generate_completion`. -/
structure ChatMessage where
  role : String
  content : String

/-- The system-message extraction loop of `AnthropicProvider
.generate_completion`: each system message OVERWRITES `system_message`
(so the last one wins) and every other message is appended in order. -/
def collectGo : Option String → List ChatMessage → List ChatMessage →
    Option String × List ChatMessage
  | sys, acc, [] => (sys, acc)
  | sys, acc, msg :: rest =>
    if msg.role = "system" then collectGo (some msg.content) acc rest
    else collectGo sys (acc ++ [msg]) rest

/-- Result of the extraction loop started with no system message and no
collected user messages. -/
def collectMessages (msgs : List ChatMessage) : Option String × List ChatMessage :=
  collectGo none [] msgs

/-- Specification-side description of the loop result: the content of the
LAST system message in the list, if any. -/
def lastSys : List ChatMessage → Option String
  | [] => none
  | msg :: rest =>
    if msg.role = "system" then Option.or (lastSys rest) (some msg.content)
    else lastSys rest

/-- Specification-side description: the non-system messages in order. -/
def nonSystemMessages : List ChatMessage → List ChatMessage
  | [] => []
  | msg :: rest =>
    if msg.role = "system" then nonSystemMessages rest
    else msg :: nonSystemMessages rest

/-- The fixed JSON instruction appended by the Anthropic adapter. -/
def jsonOnlyInstruction : String := "You must respond with valid JSON only. No additional text."

/-- The json-mode transformation of the system content: with a truthy system
message the instruction is appended after a blank line; otherwise (no system
message, or an empty and hence falsy one) the instruction alone is used. -/
def anthropicSystemAfterJsonMode (sys : Option String) (json_mode : Bool) : Option String :=
  if json_mode then
    match sys with
    | some c => if c = "" then some jsonOnlyInstruction
                else some (c ++ "\n\n" ++ jsonOnlyInstruction)
    | none => some jsonOnlyInstruction
  else sys

/-- The `system` kwarg is only set when the final system content is truthy. -/
def dropFalsy (x : Option String) : Option String :=
  match x with
  | some c => if c = "" then none else some c
  | none => none

/-- The request the Anthropic adapter sends to its backend. -/
structure AnthropicRequest where
  model : String
  max_tokens : Nat
  temperature : Rat
  messages : List ChatMessage
  system : Option String

/-- Model of the request construction in
`AnthropicProvider.generate_completion` (everything up to the network call). -/
def anthropic_build_request (s : Settings) (messages : List ChatMessage)
    (max_tokens : Nat) (temperature : Rat) (json_mode : Bool) : AnthropicRequest :=
  let split := collectMessages messages
  { model := s.LLM_MODEL
    max_tokens := max_tokens
    temperature := temperature
    messages := split.2
    system := dropFalsy (anthropicSystemAfterJsonMode split.1 json_mode) }

/-! ### Retry policy (`tenacity` decorator on the adapters) -/

/-- Errors an adapter attempt can raise: `rateLimit` models
`LLMRateLimitError`, `api` models `LLMAPIError`. -/
inductive AdapterError where
  | rateLimit (msg : String)
  | api (msg : String)

/-- Outcome of one attempt of the wrapped adapter body. -/
inductive AttemptOutcome where
  | ok (text : String)
  | err (e : AdapterError)

/-- The tenacity `wait_exponential(multiplier=1, min=2, max=60)` delay after
the failed attempt with the given (1-based) number:
`max(min, min(multiplier * 2 ^ attemptNumber, max))`. -/
def wait_exponential (multiplier minW maxW attemptNumber : Nat) : Nat :=
  Nat.max minW (Nat.min (multiplier * 2 ^ attemptNumber) maxW)

/-- Delay sequence used by the adapters. -/
def adapterWait (attemptNumber : Nat) : Nat := wait_exponential 1 2 60 attemptNumber

/-- What propagates when the retried call fails.  `raised` is an exception
re-raised unchanged because it did not match
`retry_if_exception_type(LLMRateLimitError)`.  `retryError` models the
tenacity `RetryError` wrapper raised when `stop_after_attempt` is reached:
the decorator is used WITHOUT `reraise=True`, so the caller receives the
wrapper, not the final `LLMRateLimitError` itself. -/
inductive RetryFailure where
  | raised (attempts : Nat) (delays : List Nat) (e : AdapterError)
  | retryError (attempts : Nat) (delays : List Nat) (last : AdapterError)

/-- A successful retried call, with the number of attempts made and the
delays slept between them. -/
structure RetrySuccess where
  text : String
  attempts : Nat
  delays : List Nat

/-- The tenacity retry loop with `retry_if_exception_type(LLMRateLimitError)`
and `stop_after_attempt n`: attempt `k` runs the body; success returns; a
non-rate-limit error re-raises immediately; a rate-limit error checks the
stop condition (`k ≥ n`) and otherwise sleeps `adapterWait k` and retries.
The fuel argument equals the remaining allowed iterations and never runs out
when started with fuel `n` (the `0` branch is unreachable then). -/
def retryLoop (outcomes : Nat → AttemptOutcome) (n : Nat) :
    Nat → Nat → List Nat → Except RetryFailure RetrySuccess
  | k, fuel, delays =>
    match outcomes k with
    | AttemptOutcome.ok t => Except.ok { text := t, attempts := k, delays := delays }
    | AttemptOutcome.err (AdapterError.api msg) =>
      Except.error (RetryFailure.raised k delays (AdapterError.api msg))
    | AttemptOutcome.err (AdapterError.rateLimit msg) =>
      if k ≥ n then
        Except.error (RetryFailure.retryError k delays (AdapterError.rateLimit msg))
      else
        match fuel with
        | 0 => Except.error (RetryFailure.retryError k delays (AdapterError.rateLimit msg))
        | fuel2 + 1 => retryLoop outcomes n (k + 1) fuel2 (delays ++ [adapterWait k])

/-- Model of a call to the decorated `generate_completion` of an adapter:
the attempt outcomes are a parameter standing for the successive results of
the adapter body, `n` is `settings.LLM_MAX_RETRIES` as passed to
`stop_after_attempt`. -/
def generate_completion_retry (outcomes : Nat → AttemptOutcome) (n : Nat) :
    Except RetryFailure RetrySuccess :=
  retryLoop outcomes n 1 n []

/-! ## Summary service (`services/summary_service.py`) -/

/-- The failure modes that can surface from the LLM call and response
handling inside a service operation.  `parseError` models
`LLMResponseParseError`, `validationError` a pydantic `ValidationError`,
`rateLimitError` and `apiError` the `LLMError` subclasses, and
`retryExhausted` the tenacity `RetryError` wrapper (which is NOT an
`LLMError` and therefore not caught by the `except LLMError` clause). -/
inductive LLMCallFailure where
  | parseError (msg : String)
  | validationError (msg : String)
  | rateLimitError (msg : String)
  | apiError (msg : String)
  | retryExhausted (msg : String)

/-- The message of the exception as seen by the outer handler of
`generate_summary` / `extract_action_items`: the inner handler of
`_generate_summary_from_llm` / `_extract_from_llm` re-wraps the three caught
classes with its own prefixes, while a tenacity `RetryError` passes through
unwrapped. -/
def innerWrapMsg : LLMCallFailure → String
  | LLMCallFailure.parseError m => "Failed to parse AI response: " ++ m
  | LLMCallFailure.validationError m => "AI response validation failed: " ++ m
  | LLMCallFailure.rateLimitError m => "AI service error: " ++ m
  | LLMCallFailure.apiError m => "AI service error: " ++ m
  | LLMCallFailure.retryExhausted m => m

/-- Exceptions raised by `MeetingSummaryService.generate_summary`.  The
`cause` of a `summaryGenerationError` records the underlying failure that
the Python message string embeds (`none` for the no-content rejection). -/
inductive SummaryError where
  | meetingNotFound (msg : String)
  | summaryGenerationError (msg : String) (cause : Option LLMCallFailure)

/-- The no-content rejection message of `generate_summary`. -/
def noContentSummaryMsg : String :=
  "Meeting has no content to summarize. Please add original_text first."

/-- The content check of both services:
`not meeting.original_text or not meeting.original_text.strip()`. -/
def noContent (m : Meeting) : Bool :=
  match m.original_text with
  | none => true
  | some t => t = "" || pyStrip t = ""

/-- Model of `generate_summary` on a loaded meeting.  The LLM round trip
(prompt build, `generate_json`, pydantic validation) is abstracted into the
`llm` parameter: its `Except.ok` carries a validated `MeetingSummaryOutput`,
its `Except.error` any failure raised from `_generate_summary_from_llm`.
The function returns what the caller sees together with the final persisted
row: the no-content rejection happens before the status write; on success
the four content fields and the `completed` status are written together; on
any failure after the `processing` write the status is set back to `draft`,
no content field is written, and a `SummaryGenerationError` wrapping the
cause is raised. -/
def generate_summary_loaded (m : Meeting)
    (llm : Except LLMCallFailure MeetingSummaryOutput) :
    Except SummaryError Meeting × Meeting :=
  if noContent m then
    (Except.error (SummaryError.summaryGenerationError noContentSummaryMsg none), m)
  else
    let processing := { m with status := MeetingStatus.processing }
    match llm with
    | Except.ok out =>
      let updated := { processing with
        summary := some out.summary
        topics := some (json_dumps_strlist out.topics)
        decisions := some (json_dumps_strlist out.decisions)
        discussion_points := some (json_dumps_strlist out.discussion_points)
        status := MeetingStatus.completed }
      (Except.ok updated, updated)
    | Except.error e =>
      let reverted := { processing with status := MeetingStatus.draft }
      (Except.error (SummaryError.summaryGenerationError
        ("Summary generation failed: " ++ innerWrapMsg e) (some e)), reverted)

/-- Model of the full `generate_summary(meeting_id)` including the load
step: an absent row raises `MeetingNotFoundError` before anything else. -/
def generate_summary (meeting_id : Int) (loaded : Option Meeting)
    (llm : Except LLMCallFailure MeetingSummaryOutput) :
    Except SummaryError Meeting × Option Meeting :=
  match loaded with
  | none =>
    (Except.error (SummaryError.meetingNotFound
      ("Meeting with id " ++ toString meeting_id ++ " not found")), none)
  | some m =>
    let r := generate_summary_loaded m llm
    (r.1, some r.2)

/-! ## Action-item extraction service (`services/action_item_service.py`) -/

/-- Exceptions raised by `ActionItemExtractionService.extract_action_items`. -/
inductive ExtractionError where
  | meetingNotFound (msg : String)
  | extractionError (msg : String) (cause : Option LLMCallFailure)

/-- The no-content rejection message of `extract_action_items`. -/
def noContentExtractionMsg : String :=
  "Meeting has no content to extract action items from. Please add original_text first."

/-- A date value as produced by `datetime.strptime(s, "%Y-%m-%d")`. -/
structure PyDate where
  year : Nat
  month : Nat
  day : Nat

/-- Gregorian leap-year rule, as used by `datetime`. -/
def isLeapYear (y : Nat) : Bool :=
  (y % 4 = 0 && y % 100 ≠ 0) || y % 400 = 0

/-- Number of days of a month, as validated by the `datetime` constructor. -/
def daysInMonth (y m : Nat) : Nat :=
  if m = 2 then (if isLeapYear y then 29 else 28)
  else if m = 4 || m = 6 || m = 9 || m = 11 then 30
  else 31

/-- Value of a decimal digit character, if any. -/
def digitVal (c : Char) : Option Nat :=
  if c.isDigit then some (c.toNat - 48) else none

/-- The `%m` field of `strptime`: the regex `1[0-2]|0[1-9]|[1-9]` — two
digits when they form a valid month pattern, else one non-zero digit. -/
def takeMonth : List Char → Option (Nat × List Char)
  | c1 :: c2 :: rest =>
    match digitVal c1, digitVal c2 with
    | some a, some b =>
      if (a = 1 && b ≤ 2) || (a = 0 && 1 ≤ b) then some (10 * a + b, rest)
      else if 1 ≤ a then some (a, c2 :: rest)
      else none
    | some a, none => if 1 ≤ a then some (a, c2 :: rest) else none
    | none, _ => none
  | [c1] =>
    match digitVal c1 with
    | some a => if 1 ≤ a then some (a, []) else none
    | none => none
  | [] => none

/-- The `%d` field of `strptime`: the regex `3[01]|[12][0-9]|0[1-9]|[1-9]`. -/
def takeDay : List Char → Option (Nat × List Char)
  | c1 :: c2 :: rest =>
    match digitVal c1, digitVal c2 with
    | some a, some b =>
      if (a = 3 && b ≤ 1) || a = 1 || a = 2 || (a = 0 && 1 ≤ b) then
        some (10 * a + b, rest)
      else if 1 ≤ a then some (a, c2 :: rest)
      else none
    | some a, none => if 1 ≤ a then some (a, c2 :: rest) else none
    | none, _ => none
  | [c1] =>
    match digitVal c1 with
    | some a => if 1 ≤ a then some (a, []) else none
    | none => none
  | [] => none

/-- Model of `datetime.strptime(s, "%Y-%m-%d")`: exactly four year digits,
literal dashes, the month and day fields above, nothing left over, and the
`datetime` constructor validation (year at least 1, day within the month).
`none` models a raised `ValueError`. -/
def parse_ymd (s : String) : Option PyDate :=
  match s.data with
  | y1 :: y2 :: y3 :: y4 :: rest =>
    match digitVal y1, digitVal y2, digitVal y3, digitVal y4 with
    | some a, some b, some c, some d =>
      let year := 1000 * a + 100 * b + 10 * c + d
      match rest with
      | h1 :: rest2 =>
        if h1 = '-' then
          match takeMonth rest2 with
          | some (month, rest3) =>
            match rest3 with
            | h2 :: rest4 =>
              if h2 = '-' then
                match takeDay rest4 with
                | some (day, []) =>
                  if 1 ≤ year && day ≤ daysInMonth year month then
                    some { year := year, month := month, day := day }
                  else none
                | _ => none
              else none
            | [] => none
          | none => none
        else none
      | [] => none
    | _, _, _, _ => none
  | _ => none

/-- The per-item due-date handling of `_save_action_items`: a falsy
(`None` or empty) `due_date` is not parsed at all; a parse failure is logged
and leaves the date `None`; neither aborts anything. -/
def parseDueDate (due : Option String) : Option PyDate :=
  match due with
  | some s => if s = "" then none else parse_ymd s
  | none => none

/-- A persisted `action_items` row as created by `_save_action_items`
(DB-managed id and timestamps omitted). -/
structure ActionItemRow where
  meeting_id : Int
  title : String
  description : String
  owner : String
  due_date : Option PyDate
  priority : String
  status : String

/-- The body of the `_save_action_items` loop for one extracted item:
`description` goes through the Python `or ""`, the status is always
`"todo"`, and the row is linked to the given meeting id. -/
def mkActionItemRow (mid : Int) (item : ActionItemOutput) : ActionItemRow where
  meeting_id := mid
  title := item.title
  description := pyStrOr item.description ""
  owner := item.owner
  due_date := parseDueDate item.due_date
  priority := item.priority
  status := "todo"

/-- Model of `_save_action_items`: one row per extracted item, in order,
each computed independently from its own item only. -/
def save_action_items (mid : Int) (items : List ActionItemOutput) : List ActionItemRow :=
  items.map (mkActionItemRow mid)

/-- Model of `extract_action_items` on a loaded meeting.  The LLM round trip
up to `json.loads` is abstracted into the `llmJson` parameter (the parsed
json response or a failure); the pydantic validation and the persistence
loop are modelled explicitly.  The service never writes the meeting row, so
the final meeting state (second component) is the input row unchanged. -/
def extract_action_items (m : Meeting) (llmJson : Except LLMCallFailure Json) :
    Except ExtractionError (List ActionItemRow) × Meeting :=
  if noContent m then
    (Except.error (ExtractionError.extractionError noContentExtractionMsg none), m)
  else
    match llmJson with
    | Except.error e =>
      (Except.error (ExtractionError.extractionError
        ("Action item extraction failed: " ++ innerWrapMsg e) (some e)), m)
    | Except.ok j =>
      match validateExtractionOutput j with
      | Except.error vmsg =>
        (Except.error (ExtractionError.extractionError
          ("Action item extraction failed: " ++ innerWrapMsg (LLMCallFailure.validationError vmsg))
          (some (LLMCallFailure.validationError vmsg))), m)
      | Except.ok out => (Except.ok (save_action_items m.id out.action_items), m)

/-! ## Concrete instances used by the witness theorems -/

/-- A meeting with summarizable content. -/
def c1meeting : Meeting where
  id := 1
  title := "Weekly sync"
  original_text := some "We discussed the roadmap."

/-- A meeting whose `original_text` is whitespace-only. -/
def c2meeting : Meeting where
  id := 2
  title := "Empty meeting"
  original_text := some "  \n \t "

/-- A meeting used for the successful-generation witness. -/
def c3meeting : Meeting where
  id := 3
  title := "Sprint planning"
  original_text := some "We planned the sprint."

/-- A validated LLM output used for the successful-generation witness. -/
def c3output : MeetingSummaryOutput where
  summary := "Planned the sprint."
  topics := ["plan"]
  decisions := []
  discussion_points := ["scope"]

/-- The expected final row of the successful-generation witness. -/
def c3final : Meeting :=
  { c3meeting with
    summary := some "Planned the sprint."
    topics := some (json_dumps_strlist ["plan"])
    decisions := some (json_dumps_strlist [])
    discussion_points := some (json_dumps_strlist ["scope"])
    status := MeetingStatus.completed }

/-- Attempt outcomes: a non-rate-limit API error on the very first attempt. -/
def c4apiFirst : Nat → AttemptOutcome := fun k =>
  if k = 1 then AttemptOutcome.err (AdapterError.api "backend 500")
  else AttemptOutcome.ok "unreachable"

/-- Attempt outcomes: rate-limited twice, then a success. -/
def c4mixed : Nat → AttemptOutcome := fun k =>
  if k ≤ 2 then AttemptOutcome.err (AdapterError.rateLimit ("throttled " ++ toString k))
  else AttemptOutcome.ok "done"

/-- Attempt outcomes: every attempt is rate-limited. -/
def c4allRateLimited : Nat → AttemptOutcome := fun k =>
  AttemptOutcome.err (AdapterError.rateLimit ("throttled " ++ toString k))

/-- An extracted item with a well-formed due date. -/
def c6itemGood : ActionItemOutput where
  title := "Write changelog"
  description := "Prepare the v2 changelog"
  owner := "Alice"
  due_date := some "2024-12-13"
  priority := "high"

/-- An extracted item whose due date does not parse (February 30). -/
def c6itemBadDate : ActionItemOutput where
  title := "Review budget"
  owner := "Bob"
  due_date := some "2025-02-30"

/-- A meeting used by the read-accessor witness. -/
def c9meeting : Meeting where
  id := 9
  title := "Retro"

/-- A meeting with content, used by the extraction witness. -/
def c10meeting : Meeting where
  id := 10
  title := "Planning"
  original_text := some "Tasks were assigned."

/-! ## Helper lemmas -/

/-- A string with a nonempty right part of an append is nonempty. -/
theorem append_ne_empty_right (s1 s2 : String) (h : s2 ≠ "") : s1 ++ s2 ≠ "" := by
  intro hEq
  apply h
  have hlen := congrArg String.length hEq
  rw [String.length_append] at hlen
  have h0 : s2.length = 0 := by
    have : (("" : String)).length = 0 := rfl
    omega
  cases s2 with
  | mk data =>
    cases data with
    | nil => rfl
    | cons c cs => simp [String.length] at h0

/-- The system-extraction loop computes the last system message and the
non-system messages in order, for every starting accumulator. -/
theorem collectGo_spec (msgs : List ChatMessage) :
    ∀ (sys : Option String) (acc : List ChatMessage),
      collectGo sys acc msgs =
        (Option.or (lastSys msgs) sys, acc ++ nonSystemMessages msgs) := by
  induction msgs with
  | nil => intro sys acc; simp [collectGo, lastSys, nonSystemMessages]
  | cons msg rest ih =>
    intro sys acc
    by_cases h : msg.role = "system"
    · rw [collectGo, lastSys, nonSystemMessages]
      simp only [h, if_true, ih]
      cases lastSys rest <;> simp [Option.or]
    · rw [collectGo, lastSys, nonSystemMessages]
      simp only [h, if_false, ih, ite_false]
      simp

/-! ## Claim theorems -/

/-- C1: on a meeting with non-blank `original_text`, any failure of the LLM
round trip after the status was set to `processing` leaves the row with
status `draft` and every content field (`summary`, `topics`, `decisions`,
`discussion_points`) exactly as before the call, and raises a
`SummaryGenerationError` carrying the underlying cause. -/
theorem C1_failure_reverts_to_draft (m : Meeting) (e : LLMCallFailure)
    (hcontent : noContent m = false) :
    generate_summary_loaded m (Except.error e) =
      (Except.error (SummaryError.summaryGenerationError
        ("Summary generation failed: " ++ innerWrapMsg e) (some e)),
       { m with status := MeetingStatus.draft }) := by
  simp [generate_summary_loaded, hcontent]

/-- Witness for C1 at a concrete meeting and a concrete parse failure. -/
theorem C1_failure_reverts_to_draft_witness :
    generate_summary_loaded c1meeting (Except.error (LLMCallFailure.parseError "invalid json")) =
      (Except.error (SummaryError.summaryGenerationError
        "Summary generation failed: Failed to parse AI response: invalid json"
        (some (LLMCallFailure.parseError "invalid json"))),
       { c1meeting with status := MeetingStatus.draft }) :=
  C1_failure_reverts_to_draft c1meeting (LLMCallFailure.parseError "invalid json") rfl

/-- C2: on a meeting whose `original_text` is `None`, empty or
whitespace-only, `generate_summary` raises its no-content
`SummaryGenerationError` and `extract_action_items` raises its no-content
`ActionItemExtractionError`, and in both cases the final row equals the
input row, so the status field is not modified. -/
theorem C2_blank_content_rejected (m : Meeting)
    (llm : Except LLMCallFailure MeetingSummaryOutput)
    (llmJson : Except LLMCallFailure Json) (h : noContent m = true) :
    generate_summary_loaded m llm =
      (Except.error (SummaryError.summaryGenerationError noContentSummaryMsg none), m) ∧
    extract_action_items m llmJson =
      (Except.error (ExtractionError.extractionError noContentExtractionMsg none), m) := by
  constructor <;> simp [generate_summary_loaded, extract_action_items, h]

/-- Witness for C2 at a whitespace-only meeting. -/
theorem C2_blank_content_rejected_witness :
    generate_summary_loaded c2meeting (Except.ok c3output) =
      (Except.error (SummaryError.summaryGenerationError noContentSummaryMsg none), c2meeting) ∧
    extract_action_items c2meeting (Except.ok (Json.obj [])) =
      (Except.error (ExtractionError.extractionError noContentExtractionMsg none), c2meeting) :=
  C2_blank_content_rejected c2meeting (Except.ok c3output) (Except.ok (Json.obj [])) rfl

/-- C3: every `generate_summary` call that returns without raising returns
the persisted row, whose status is `completed` and whose `summary`,
`topics`, `decisions` and `discussion_points` are all non-null, the three
list fields holding the json serialization of the validated LLM output,
written together in the same successful generation. -/
theorem C3_success_completes (m m2 : Meeting)
    (llm : Except LLMCallFailure MeetingSummaryOutput)
    (h : (generate_summary_loaded m llm).1 = Except.ok m2) :
    m2.status = MeetingStatus.completed ∧
    (generate_summary_loaded m llm).2 = m2 ∧
    ∃ out, llm = Except.ok out ∧
      m2.summary = some out.summary ∧
      m2.topics = some (json_dumps_strlist out.topics) ∧
      m2.decisions = some (json_dumps_strlist out.decisions) ∧
      m2.discussion_points = some (json_dumps_strlist out.discussion_points) := by
  by_cases hnc : noContent m
  · simp [generate_summary_loaded, hnc] at h
  · cases llm with
    | error e => simp [generate_summary_loaded, hnc] at h
    | ok out =>
      simp only [generate_summary_loaded, hnc, Bool.false_eq_true, if_false,
        Except.ok.injEq] at h
      subst h
      exact ⟨rfl, by simp [generate_summary_loaded, hnc], out, rfl, rfl, rfl, rfl, rfl⟩

/-- Witness for C3 at a concrete meeting and validated output. -/
theorem C3_success_completes_witness :
    c3final.status = MeetingStatus.completed ∧
    (generate_summary_loaded c3meeting (Except.ok c3output)).2 = c3final ∧
    ∃ out, (Except.ok c3output : Except LLMCallFailure MeetingSummaryOutput) = Except.ok out ∧
      c3final.summary = some out.summary ∧
      c3final.topics = some (json_dumps_strlist out.topics) ∧
      c3final.decisions = some (json_dumps_strlist out.decisions) ∧
      c3final.discussion_points = some (json_dumps_strlist out.discussion_points) :=
  C3_success_completes c3meeting c3final (Except.ok c3output) rfl

/-- C4: evaluation of the retry policy at the configured default of three
attempts.  A non-rate-limit error on the first attempt propagates
immediately, unretried, with no delay slept.  Rate-limit errors are retried
with the exponential capped delays 2, 4, 8, 16, 32, 60, 60, ... seconds, up
to `LLM_MAX_RETRIES` attempts.  BUT when every attempt raises a rate-limit
error, what propagates is the tenacity `RetryError` wrapper around the last
attempt (the `retryError` constructor), because the decorator does not set
`reraise=True` — not the last `LLMRateLimitError` itself, contrary to the
claim and to the docstring of `LLMService.generate_completion`. -/
theorem C4_retry_policy_evaluation :
    defaultSettings.LLM_MAX_RETRIES = 3 ∧
    generate_completion_retry c4apiFirst 3 =
      Except.error (RetryFailure.raised 1 [] (AdapterError.api "backend 500")) ∧
    generate_completion_retry c4mixed 3 =
      Except.ok { text := "done", attempts := 3, delays := [2, 4] } ∧
    generate_completion_retry c4allRateLimited 3 =
      Except.error (RetryFailure.retryError 3 [2, 4] (AdapterError.rateLimit "throttled 3")) ∧
    generate_completion_retry c4allRateLimited 8 =
      Except.error (RetryFailure.retryError 8 [2, 4, 8, 16, 32, 60, 60]
        (AdapterError.rateLimit "throttled 8")) :=
  ⟨rfl, rfl, rfl, rfl, rfl⟩

/-- C5 counterexample: the claim says a configuration with missing
credentials fails at construction; but with the anthropic provider and an
empty API key (the configured default for `LLM_API_KEY`), provider
construction SUCCEEDS — the source validates no credential for the
anthropic/openai adapters, it merely hands the key string to the SDK
client, deferring any authentication failure to the first call. -/
theorem C5_counterexample_no_credential_check :
    create_provider { defaultSettings with LLM_PROVIDER := "anthropic", LLM_API_KEY := "" } =
      Except.ok (Provider.anthropic "") := rfl

/-- C5 amended: an unrecognized provider name (after case-insensitive
matching) raises an `LLMError` at construction time, before any adapter
call; and for the azure_openai provider a missing or empty
`AZURE_OPENAI_ENDPOINT` raises an `LLMError` at construction time.
(Missing API-key credentials for the anthropic/openai providers are not
checked at construction; see the counterexample.) -/
theorem C5_construction_failure_modes (s : Settings) :
    (pyLower s.LLM_PROVIDER ≠ "anthropic" → pyLower s.LLM_PROVIDER ≠ "openai" →
      pyLower s.LLM_PROVIDER ≠ "azure_openai" →
      create_provider s = Except.error ("Unknown LLM provider: " ++ s.LLM_PROVIDER ++
        ". Available options: [anthropic, openai, azure_openai]")) ∧
    (pyLower s.LLM_PROVIDER = "azure_openai" → s.AZURE_OPENAI_ENDPOINT = none →
      create_provider s = Except.error "AZURE_OPENAI_ENDPOINT is required for Azure OpenAI") ∧
    (pyLower s.LLM_PROVIDER = "azure_openai" → s.AZURE_OPENAI_ENDPOINT = some "" →
      create_provider s = Except.error "AZURE_OPENAI_ENDPOINT is required for Azure OpenAI") := by
  refine ⟨fun h1 h2 h3 => ?_, fun h1 h2 => ?_, fun h1 h2 => ?_⟩
  · simp [create_provider, h1, h2, h3]
  · simp [create_provider, azureOpenAIInit, h1, h2]
  · simp [create_provider, azureOpenAIInit, h1, h2]

/-- Witness for C5 at an unknown provider name and at a missing Azure
endpoint. -/
theorem C5_construction_failure_modes_witness :
    create_provider { defaultSettings with LLM_PROVIDER := "Gemini" } =
      Except.error "Unknown LLM provider: Gemini. Available options: [anthropic, openai, azure_openai]" ∧
    create_provider { defaultSettings with AZURE_OPENAI_ENDPOINT := none } =
      Except.error "AZURE_OPENAI_ENDPOINT is required for Azure OpenAI" :=
  ⟨(C5_construction_failure_modes _).1 (by decide) (by decide) (by decide),
   (C5_construction_failure_modes _).2.1 (by decide) rfl⟩

/-- C6: persistence of extracted items is a per-item map, so a malformed
due-date only nulls the date of its own item: the batch keeps its length,
every row is computed from its own item alone, a failed parse stores a null
date, and every created row has status `todo` and the given meeting id. -/
theorem C6_malformed_due_date_isolated (mid : Int) (items : List ActionItemOutput) :
    (save_action_items mid items).length = items.length ∧
    (∀ j : Nat, (save_action_items mid items)[j]? = (items[j]?).map (mkActionItemRow mid)) ∧
    (∀ item : ActionItemOutput, parseDueDate item.due_date = none →
      (mkActionItemRow mid item).due_date = none) ∧
    (∀ item : ActionItemOutput,
      (mkActionItemRow mid item).status = "todo" ∧
      (mkActionItemRow mid item).meeting_id = mid ∧
      (mkActionItemRow mid item).title = item.title ∧
      (mkActionItemRow mid item).owner = item.owner ∧
      (mkActionItemRow mid item).priority = item.priority) := by
  refine ⟨by simp [save_action_items], fun j => by simp [save_action_items],
    fun item h => by simp [mkActionItemRow, h], fun item => ⟨rfl, rfl, rfl, rfl, rfl⟩⟩

/-- Witness for C6: a two-item batch where the second item carries the
invalid date 2025-02-30. -/
theorem C6_malformed_due_date_isolated_witness :
    parse_ymd "2025-02-30" = none ∧
    (mkActionItemRow 7 c6itemBadDate).due_date = none ∧
    (save_action_items 7 [c6itemGood, c6itemBadDate]).length = 2 ∧
    (save_action_items 7 [c6itemGood, c6itemBadDate])[0]? = some (mkActionItemRow 7 c6itemGood) ∧
    (mkActionItemRow 7 c6itemGood).due_date = some { year := 2024, month := 12, day := 13 } ∧
    (mkActionItemRow 7 c6itemBadDate).status = "todo" :=
  ⟨rfl,
   (C6_malformed_due_date_isolated 7 [c6itemGood, c6itemBadDate]).2.2.1 c6itemBadDate rfl,
   (C6_malformed_due_date_isolated 7 [c6itemGood, c6itemBadDate]).1,
   (C6_malformed_due_date_isolated 7 [c6itemGood, c6itemBadDate]).2.1 0,
   rfl,
   ((C6_malformed_due_date_isolated 7 [c6itemGood, c6itemBadDate]).2.2.2 c6itemBadDate).1⟩

/-- C7 counterexample: the claim says a supplied boundary value such as
`temperature 0.0` or `max_tokens 0` is passed through exactly; but the
source resolves both with the Python `or`, so the falsy `0` values select
the configured defaults 4096 and 0.7 instead. -/
theorem C7_counterexample_zero_not_passed_through :
    (generate_completion_args defaultSettings (some 0) (some 0) false).max_tokens = 4096 ∧
    (generate_completion_args defaultSettings (some 0) (some 0) false).temperature = 7 / 10 ∧
    (4096 : Nat) ≠ 0 ∧ (7 / 10 : Rat) ≠ 0 :=
  ⟨rfl, rfl, by decide, by norm_num⟩

/-- C7 amended: an omitted (or zero, hence falsy) `max_tokens`/`temperature`
takes the configured process-wide default; a supplied non-zero value is
passed through to the adapter exactly; `json_mode` is passed unchanged. -/
theorem C7_defaulting_and_passthrough (s : Settings) (mt : Option Nat)
    (t : Option Rat) (jm : Bool) :
    (mt = none ∨ mt = some 0 →
      (generate_completion_args s mt t jm).max_tokens = s.LLM_MAX_TOKENS) ∧
    (∀ v : Nat, mt = some v → v ≠ 0 →
      (generate_completion_args s mt t jm).max_tokens = v) ∧
    (t = none ∨ t = some 0 →
      (generate_completion_args s mt t jm).temperature = s.LLM_TEMPERATURE) ∧
    (∀ r : Rat, t = some r → r ≠ 0 →
      (generate_completion_args s mt t jm).temperature = r) ∧
    (generate_completion_args s mt t jm).json_mode = jm := by
  refine ⟨?_, ?_, ?_, ?_, rfl⟩
  · rintro (rfl | rfl) <;> rfl
  · rintro v rfl hv
    simp [generate_completion_args, pyOrNat, hv]
  · rintro (rfl | rfl) <;> rfl
  · rintro r rfl hr
    simp [generate_completion_args, pyOrRat, hr]

/-- Witness for C7 at supplied non-zero values and at omitted values. -/
theorem C7_defaulting_and_passthrough_witness :
    (generate_completion_args defaultSettings (some 1000) (some (3 / 10)) true).max_tokens = 1000 ∧
    (generate_completion_args defaultSettings (some 1000) (some (3 / 10)) true).temperature = 3 / 10 ∧
    (generate_completion_args defaultSettings none none false).max_tokens = defaultSettings.LLM_MAX_TOKENS ∧
    (generate_completion_args defaultSettings none none false).temperature = defaultSettings.LLM_TEMPERATURE :=
  ⟨(C7_defaulting_and_passthrough defaultSettings (some 1000) (some (3 / 10)) true).2.1 1000 rfl (by decide),
   (C7_defaulting_and_passthrough defaultSettings (some 1000) (some (3 / 10)) true).2.2.2.1 (3 / 10) rfl (by norm_num),
   (C7_defaulting_and_passthrough defaultSettings none none false).1 (Or.inl rfl),
   (C7_defaulting_and_passthrough defaultSettings none none false).2.2.1 (Or.inl rfl)⟩

/-- C8 counterexample: with the two system messages "A" then "B", the
Anthropic-style adapter sends system content "B" — the LAST system message
— which is neither the first system message nor any merge preserving the
content of both (a merge equal to "B" would have discarded "A" entirely). -/
theorem C8_counterexample_last_not_first :
    (anthropic_build_request defaultSettings
      [{ role := "system", content := "A" }, { role := "system", content := "B" },
       { role := "user", content := "hi" }] 4096 (7 / 10) false).system = some "B" ∧
    ("B" : String) ≠ "A" ∧ ("B" : String).length < ("A" : String).length + ("B" : String).length :=
  ⟨rfl, by decide, by decide⟩

/-- C8 amended: when the message list contains several system messages, the
Anthropic-style adapter uses only the LAST one as the system instruction
(each system message overwrites the previous in the extraction loop) and
forwards the non-system messages in order; when `json_mode` is true it
appends the explicit JSON-only instruction to that system content, or uses
the instruction alone when no (truthy) system message exists. -/
theorem C8_last_system_and_json_instruction (s : Settings) (msgs : List ChatMessage)
    (mt : Nat) (t : Rat) (jm : Bool) :
    (anthropic_build_request s msgs mt t jm).messages = nonSystemMessages msgs ∧
    (anthropic_build_request s msgs mt t jm).system =
      dropFalsy (anthropicSystemAfterJsonMode (lastSys msgs) jm) ∧
    (jm = true → lastSys msgs = none →
      (anthropic_build_request s msgs mt t jm).system = some jsonOnlyInstruction) ∧
    (∀ c : String, jm = true → lastSys msgs = some c → c ≠ "" →
      (anthropic_build_request s msgs mt t jm).system =
        some (c ++ "\n\n" ++ jsonOnlyInstruction)) := by
  have hsplit := collectGo_spec msgs none []
  have hmain : anthropic_build_request s msgs mt t jm =
      { model := s.LLM_MODEL, max_tokens := mt, temperature := t,
        messages := nonSystemMessages msgs,
        system := dropFalsy (anthropicSystemAfterJsonMode (lastSys msgs) jm) } := by
    simp only [anthropic_build_request, collectMessages, hsplit]
    cases lastSys msgs <;> simp [Option.or]
  refine ⟨by rw [hmain], by rw [hmain], fun hj hnone => ?_, fun c hj hsome hc => ?_⟩
  · rw [hmain]
    simp only [hnone, hj, anthropicSystemAfterJsonMode, if_true, dropFalsy]
    rw [if_neg (by decide : ¬ jsonOnlyInstruction = "")]
  · rw [hmain]
    simp only [hsome, hj, anthropicSystemAfterJsonMode, if_true]
    rw [if_neg hc]
    show (if (c ++ "\n\n" ++ jsonOnlyInstruction) = "" then none
      else some (c ++ "\n\n" ++ jsonOnlyInstruction)) = some (c ++ "\n\n" ++ jsonOnlyInstruction)
    rw [if_neg (append_ne_empty_right _ _ (by decide : ¬ jsonOnlyInstruction = ""))]

/-- Witness for C8: json mode with no system message uses the instruction
alone; json mode with one system message appends the instruction to it. -/
theorem C8_last_system_and_json_instruction_witness :
    (anthropic_build_request defaultSettings [{ role := "user", content := "hi" }]
      4096 (7 / 10) true).system = some jsonOnlyInstruction ∧
    (anthropic_build_request defaultSettings
      [{ role := "system", content := "Be brief." }, { role := "user", content := "hi" }]
      4096 (7 / 10) true).system = some ("Be brief." ++ "\n\n" ++ jsonOnlyInstruction) :=
  ⟨(C8_last_system_and_json_instruction defaultSettings
      [{ role := "user", content := "hi" }] 4096 (7 / 10) true).2.2.1 rfl rfl,
   (C8_last_system_and_json_instruction defaultSettings
      [{ role := "system", content := "Be brief." }, { role := "user", content := "hi" }]
      4096 (7 / 10) true).2.2.2 "Be brief." rfl rfl (by decide)⟩

/-- C9: a stored `topics` / `decisions` / `discussion_points` string that
is not valid json makes the corresponding list accessor return the empty
list; the accessors are total functions, so no exception can escape at read
time. -/
theorem C9_malformed_json_decodes_to_empty (s : String) (h : json_loads s = none)
    (m : Meeting) :
    topics_list { m with topics := some s } = Json.arr [] ∧
    decisions_list { m with decisions := some s } = Json.arr [] ∧
    discussion_points_list { m with discussion_points := some s } = Json.arr [] := by
  refine ⟨?_, ?_, ?_⟩ <;>
    · simp only [topics_list, decisions_list, discussion_points_list]
      by_cases hs : s = "" <;> simp [hs, h]

/-- Witness for C9 at the non-json string used (an unterminated brace). -/
theorem C9_malformed_json_decodes_to_empty_witness :
    json_loads "\x7boops" = none ∧
    topics_list { c9meeting with topics := some "\x7boops" } = Json.arr [] ∧
    decisions_list { c9meeting with decisions := some "\x7boops" } = Json.arr [] ∧
    discussion_points_list { c9meeting with discussion_points := some "\x7boops" } = Json.arr [] :=
  ⟨rfl,
   (C9_malformed_json_decodes_to_empty "\x7boops" rfl c9meeting).1,
   (C9_malformed_json_decodes_to_empty "\x7boops" rfl c9meeting).2.1,
   (C9_malformed_json_decodes_to_empty "\x7boops" rfl c9meeting).2.2⟩

/-- C10: a valid json object without the `action_items` key validates to
the default empty item list, so `extract_action_items` on a meeting with
content completes successfully and returns no created rows; and an item
missing `description` and `priority` validates with the defaults `""` and
`"medium"`. -/
theorem C10_missing_key_defaults (m : Meeting) (h : noContent m = false) :
    extract_action_items m (Except.ok (Json.obj [])) = (Except.ok [], m) ∧
    validateExtractionOutput (Json.obj []) = Except.ok { action_items := [] } ∧
    (∀ t o : String,
      validateActionItem (Json.obj [("title", Json.str t), ("owner", Json.str o)]) =
        Except.ok { title := t, description := "", owner := o,
                    due_date := none, priority := "medium" }) := by
  refine ⟨?_, rfl, fun t o => rfl⟩
  simp [extract_action_items, h, validateExtractionOutput, dictGet, save_action_items]

/-- Witness for C10 at a concrete meeting and a concrete minimal item. -/
theorem C10_missing_key_defaults_witness :
    extract_action_items c10meeting (Except.ok (Json.obj [])) = (Except.ok [], c10meeting) ∧
    validateActionItem (Json.obj [("title", Json.str "Send invoices"),
        ("owner", Json.str "Dana")]) =
      Except.ok { title := "Send invoices", description := "", owner := "Dana",
                  due_date := none, priority := "medium" } :=
  ⟨(C10_missing_key_defaults c10meeting rfl).1,
   (C10_missing_key_defaults c10meeting rfl).2.2 "Send invoices" "Dana"⟩
